import Mathlib

/-!
Verification of the Discord RPC WebSocket client session core
(src/discord_rpc_client.py).

The embedding is shallow: JSON values decoded by the black-box JSON
collaborator are an inductive `Json` type; Python lookup failures
(KeyError, TypeError, AttributeError) and transport failures are a
`PyErr` type; every observable action (a log line, a transport send,
a transport close) is an `Effect`, and each method of the class
`DiscordRPCClient` is a pure function from the session record and the
relevant transport inputs to the updated session record plus the list
of effects it performs, in order.  The receive loop consumes the list
of text frames the transport delivers (each paired with the result of
JSON decoding it, since JSON decoding is an external collaborator) and
a marker saying how the asynchronous stream ends.
-/

/-- A decoded JSON value: the structured values produced by the JSON
collaborator (json.loads).  Objects are association lists of string
keys, in order. -/
inductive Json where
  | null : Json
  | bool : Bool → Json
  | num : Int → Json
  | str : String → Json
  | arr : List Json → Json
  | obj : List (String × Json) → Json

/-- Python exceptions relevant to this client: subscription failures
(d[k] with k missing is KeyError, subscripting a non-dict by a string
key is TypeError), calling .get on a non-dict (AttributeError), and an
error raised by the transport while awaiting a frame. -/
inductive PyErr where
  | keyError : String → PyErr
  | typeError : PyErr
  | attributeError : PyErr
  | transportError : String → PyErr
deriving DecidableEq

/-- Python subscription d[k] on a decoded JSON value. -/
def Json.getItem : Json → String → Except PyErr Json
  | Json.obj fields, k =>
    match List.lookup k fields with
    | some v => Except.ok v
    | none => Except.error (PyErr.keyError k)
  | _, _ => Except.error PyErr.typeError

/-- Python dict.get(k) on a decoded JSON value: None when the key is
absent, AttributeError when the value is not a dict. -/
def Json.dictGet : Json → String → Except PyErr (Option Json)
  | Json.obj fields, k => Except.ok (List.lookup k fields)
  | _, _ => Except.error PyErr.attributeError

/-- One observable action of the client, in program order: a log line
(carrying the data the source interpolates into it) or a transport
operation. -/
inductive Effect where
  | logConnecting : String → Effect
  | logConnected : Effect
  | logConnectFailed : String → Effect
  | logNotConnected : Effect
  | logReceived : String → Effect
  | logJsonError : String → Effect
  | logRawMessage : String → Effect
  | dispatch : Json → Effect
  | logReady : Effect
  | logUser : Json → Effect
  | logConfig : Json → Effect
  | logDispatchEvent : Option Json → Effect
  | logDispatchData : Json → Effect
  | logUnknown : Option Json → Option Json → Effect
  | logConnClosed : Effect
  | logListenError : PyErr → Effect
  | wsSend : Json → Effect
  | logSent : Json → Effect
  | logSendFailed : String → Effect
  | wsClose : Effect
  | logClosed : Effect

/-- True exactly for the effect marking an invocation of
handle_message from the receive loop. -/
def Effect.isDispatchCall : Effect → Bool
  | Effect.dispatch _ => true
  | _ => false

/-- True exactly for effects produced by the generic-dispatch branch
of handle_message. -/
def Effect.isDispatchBranch : Effect → Bool
  | Effect.logDispatchEvent _ => true
  | Effect.logDispatchData _ => true
  | _ => false

/-- True exactly for transport I/O effects (connect attempts are not
modelled as effects of the session record itself; the send and close
operations are). -/
def Effect.isTransportOp : Effect → Bool
  | Effect.wsSend _ => true
  | Effect.wsClose => true
  | _ => false

/-- Number of frames handed to the transport for transmission. -/
def countSends (es : List Effect) : Nat :=
  (es.filter (fun e => match e with | Effect.wsSend _ => true | _ => false)).length

/-- The session record: host, port, the connection handle (None before
connect succeeds), and the endpoint URL fixed at construction. -/
structure DiscordRPCClient where
  host : String
  port : Nat
  websocket : Option Nat
  url : String
deriving DecidableEq

/-- The constructor of DiscordRPCClient: stores host and port, sets
the handle to None, and builds the ws:// URL. -/
def DiscordRPCClient.init (host : String) (port : Nat) : DiscordRPCClient :=
  { host := host, port := port, websocket := none,
    url := "ws://" ++ host ++ ":" ++ toString port }

/-- connect(): attempts the transport connection, whose outcome is the
input (a fresh handle on success, an exception message on failure).
On success stores the handle and returns True; on failure logs the
cause and returns False, leaving the session unchanged. -/
def DiscordRPCClient.connect (s : DiscordRPCClient) (transport : Except String Nat) :
    DiscordRPCClient × Bool × List Effect :=
  match transport with
  | Except.ok h =>
    ({ s with websocket := some h }, true,
      [Effect.logConnecting s.url, Effect.logConnected])
  | Except.error e =>
    (s, false, [Effect.logConnecting s.url, Effect.logConnectFailed e])

/-- The ready branch of handle_message: logs the ready line, then the
username and config lines, each line evaluated left to right so a
lookup failure escapes after the effects already performed. -/
def readyBranch (data : Json) : List Effect × Option PyErr :=
  match data.getItem "data" with
  | Except.error e => ([Effect.logReady], some e)
  | Except.ok d =>
    match d.getItem "user" with
    | Except.error e => ([Effect.logReady], some e)
    | Except.ok u =>
      match u.getItem "username" with
      | Except.error e => ([Effect.logReady], some e)
      | Except.ok uname =>
        match d.getItem "config" with
        | Except.error e => ([Effect.logReady, Effect.logUser uname], some e)
        | Except.ok cfg =>
          ([Effect.logReady, Effect.logUser uname, Effect.logConfig cfg], none)

/-- The generic-dispatch branch of handle_message: logs the event
name, then the payload, whose lookup may escape. -/
def dispatchBranch (data : Json) (evt : Option Json) : List Effect × Option PyErr :=
  match data.getItem "data" with
  | Except.error e => ([Effect.logDispatchEvent evt], some e)
  | Except.ok d => ([Effect.logDispatchEvent evt, Effect.logDispatchData d], none)

/-- Whether an optional decoded value equals the string READY. -/
def isReadyEvt : Option Json → Bool
  | some (Json.str s) => s == "READY"
  | _ => false

/-- Whether an optional decoded value equals the string DISPATCH. -/
def isDispatchCmd : Option Json → Bool
  | some (Json.str s) => s == "DISPATCH"
  | _ => false

/-- handle_message(data): reads cmd and evt with dict.get, classifies
with evt == READY first, then cmd == DISPATCH, else the unknown case.
Returns the effects performed and the exception that escaped, if any.
A non-dict argument raises AttributeError at the first .get call. -/
def handle_message (data : Json) : List Effect × Option PyErr :=
  match data with
  | Json.obj fields =>
    let cmd := List.lookup "cmd" fields
    let evt := List.lookup "evt" fields
    if isReadyEvt evt then
      readyBranch data
    else if isDispatchCmd cmd then
      dispatchBranch data evt
    else
      ([Effect.logUnknown cmd evt], none)
  | _ => ([], some PyErr.attributeError)

/-- How the asynchronous frame stream ends after the delivered frames:
exhausted with no signal, a graceful ConnectionClosed from the remote
side, or a transport-level error. -/
inductive StreamEnd where
  | exhausted : StreamEnd
  | connClosed : StreamEnd
  | transportError : String → StreamEnd
deriving DecidableEq

/-- Effects of the end of the receive loop: ConnectionClosed is caught
and logged as an info line; any other transport error is caught by the
generic handler and logged as an error. -/
def endEffects : StreamEnd → List Effect
  | StreamEnd.exhausted => []
  | StreamEnd.connClosed => [Effect.logConnClosed]
  | StreamEnd.transportError e => [Effect.logListenError (PyErr.transportError e)]

/-- One delivered text frame: the raw text plus the result of JSON
decoding it (the JSON collaborator is external, so its verdict is an
input; an error value is a JSONDecodeError with its message). -/
abbrev Frame := String × Except String Json

/-- The body of listen(): for each frame, log it; on decode failure
log the parse error and the raw content and continue; on decode
success invoke handle_message, and if an exception escapes it, the
generic except handler logs it and the loop stops. -/
def listenLoop : List Frame → StreamEnd → List Effect
  | [], ending => endEffects ending
  | (raw, Except.error emsg) :: rest, ending =>
    Effect.logReceived raw :: Effect.logJsonError emsg :: Effect.logRawMessage raw ::
      listenLoop rest ending
  | (raw, Except.ok data) :: rest, ending =>
    Effect.logReceived raw :: Effect.dispatch data ::
      ((handle_message data).1 ++
        match (handle_message data).2 with
        | none => listenLoop rest ending
        | some e => [Effect.logListenError e])

/-- listen(): precondition check on the handle, then the loop.  The
method never assigns to the session, so the session is returned
unchanged. -/
def DiscordRPCClient.listen (s : DiscordRPCClient) (frames : List Frame)
    (ending : StreamEnd) : DiscordRPCClient × List Effect :=
  match s.websocket with
  | none => (s, [Effect.logNotConnected])
  | some _ => (s, listenLoop frames ending)

/-- send_command(command): precondition check on the handle; then
serializes and sends the envelope.  The transport verdict is an input:
None means the frame was accepted (then the sent line is logged), an
exception message means the send failed (then the failure is logged
and swallowed). -/
def DiscordRPCClient.send_command (s : DiscordRPCClient) (command : Json)
    (sendResult : Option String) : DiscordRPCClient × List Effect :=
  match s.websocket with
  | none => (s, [Effect.logNotConnected])
  | some _ =>
    match sendResult with
    | none => (s, [Effect.wsSend command, Effect.logSent command])
    | some e => (s, [Effect.logSendFailed e])

/-- The envelope send_activity_update builds: cmd SET_ACTIVITY, args
holding the integer pid 12345 and the caller activity verbatim, and
the literal nonce activity-update. -/
def activityCommand (activity : Json) : Json :=
  Json.obj
    [("cmd", Json.str "SET_ACTIVITY"),
     ("args", Json.obj [("pid", Json.num 12345), ("activity", activity)]),
     ("nonce", Json.str "activity-update")]

/-- send_activity_update(activity): builds the envelope and delegates
to send_command. -/
def DiscordRPCClient.send_activity_update (s : DiscordRPCClient) (activity : Json)
    (sendResult : Option String) : DiscordRPCClient × List Effect :=
  s.send_command (activityCommand activity) sendResult

/-- close(): if a handle is present, requests the transport shutdown
and logs; the handle attribute is not assigned, so the session record
is returned unchanged in both cases. -/
def DiscordRPCClient.close (s : DiscordRPCClient) : DiscordRPCClient × List Effect :=
  match s.websocket with
  | none => (s, [])
  | some _ => (s, [Effect.wsClose, Effect.logClosed])

/-- A session whose connect has succeeded with handle 0, as produced
by construction at the default endpoint followed by a successful
connect. -/
def connectedClient : DiscordRPCClient :=
  { host := "localhost", port := 6463, websocket := some 0,
    url := "ws://localhost:6463" }

/-- Closing never changes the session record, because close does not
assign to the websocket attribute. -/
lemma close_fst (s : DiscordRPCClient) : (s.close).1 = s := by
  cases hs : s.websocket <;> simp [DiscordRPCClient.close, hs]

/-- The ready branch always logs the ready line first and performs no
effect of the generic-dispatch branch and no dispatch invocation. -/
lemma readyBranch_effects (d : Json) :
    (readyBranch d).1.head? = some Effect.logReady ∧
    ∀ x ∈ (readyBranch d).1,
      x.isDispatchBranch = false ∧ x.isDispatchCall = false := by
  unfold readyBranch
  repeat' split
  all_goals
    simp [Effect.isDispatchBranch, Effect.isDispatchCall]

/-- The generic-dispatch branch performs no dispatch invocation. -/
lemma dispatchBranch_effects (d : Json) (evt : Option Json) :
    ∀ x ∈ (dispatchBranch d evt).1, x.isDispatchCall = false := by
  unfold dispatchBranch
  repeat' split
  all_goals
    simp [Effect.isDispatchCall]

/-- handle_message never emits a dispatch-invocation marker among its
own effects. -/
lemma handle_message_no_dispatchCall (d : Json) :
    ∀ x ∈ (handle_message d).1, x.isDispatchCall = false := by
  cases d with
  | obj fields =>
    intro x hx
    simp only [handle_message] at hx
    split at hx
    · exact ((readyBranch_effects _).2 x hx).2
    · split at hx
      · exact dispatchBranch_effects _ _ x hx
      · simp at hx
        simp [hx, Effect.isDispatchCall]
  | null => intro x hx; simp [handle_message] at hx
  | bool b => intro x hx; simp [handle_message] at hx
  | num n => intro x hx; simp [handle_message] at hx
  | str s => intro x hx; simp [handle_message] at hx
  | arr xs => intro x hx; simp [handle_message] at hx

/-- The filter of dispatch-invocation markers over the effects of
handle_message is empty. -/
lemma handle_message_filter_dispatchCall (d : Json) :
    (handle_message d).1.filter Effect.isDispatchCall = [] := by
  rw [List.filter_eq_nil_iff]
  intro a ha
  simp [handle_message_no_dispatchCall d a ha]

/-- The end-of-stream effects contain no dispatch-invocation marker. -/
lemma endEffects_filter_dispatchCall (ending : StreamEnd) :
    (endEffects ending).filter Effect.isDispatchCall = [] := by
  cases ending <;> simp [endEffects, Effect.isDispatchCall]

/-- Claim C1, counterexample to the claim as stated.  The claim says
that after close() on a session whose handle is present the handle is
absent (nil).  On the code, close() requests the transport shutdown
but never assigns the websocket attribute, so at the concrete
connected session the handle is still present after close. -/
theorem claim_C1_counterexample :
    Effect.wsClose ∈ (connectedClient.close).2 ∧
    (connectedClient.close).1.websocket ≠ none ∧
    (connectedClient.close).1.websocket = some 0 := by
  refine ⟨?_, ?_, rfl⟩ <;> simp [DiscordRPCClient.close, connectedClient]

/-- Claim C1, amended: after close() on a session whose connection
handle is present, the graceful transport shutdown is requested, but
the handle is not cleared; the session record is unchanged and the
handle remains present. -/
theorem claim_C1 (s : DiscordRPCClient) (h : Nat) (hs : s.websocket = some h) :
    Effect.wsClose ∈ (s.close).2 ∧ (s.close).1 = s ∧
    (s.close).1.websocket = some h := by
  refine ⟨?_, ?_, ?_⟩ <;> simp [DiscordRPCClient.close, hs]

/-- Witness for claim C1 at the concrete connected session. -/
theorem claim_C1_witness :
    Effect.wsClose ∈ (connectedClient.close).2 ∧
    (connectedClient.close).1 = connectedClient ∧
    (connectedClient.close).1.websocket = some 0 :=
  claim_C1 connectedClient 0 rfl

/-- Claim C2: for every decoded Envelope whose evt field equals READY,
whatever its cmd field (including DISPATCH), handle_message selects
the ready-handshake branch (its first effect is the ready log line)
and performs no effect of the generic-dispatch branch. -/
theorem claim_C2 (fields : List (String × Json))
    (hevt : List.lookup "evt" fields = some (Json.str "READY")) :
    (handle_message (Json.obj fields)).1.head? = some Effect.logReady ∧
    ∀ x ∈ (handle_message (Json.obj fields)).1, x.isDispatchBranch = false := by
  have hm : handle_message (Json.obj fields) = readyBranch (Json.obj fields) := by
    simp [handle_message, hevt, isReadyEvt]
  rw [hm]
  exact ⟨(readyBranch_effects _).1,
    fun x hx => ((readyBranch_effects _).2 x hx).1⟩

/-- Witness for claim C2: an Envelope with both evt READY and cmd
DISPATCH takes the ready branch, never the generic-dispatch branch. -/
theorem claim_C2_witness :
    (handle_message (Json.obj
        [("cmd", Json.str "DISPATCH"), ("evt", Json.str "READY")])).1.head?
      = some Effect.logReady ∧
    ∀ x ∈ (handle_message (Json.obj
        [("cmd", Json.str "DISPATCH"), ("evt", Json.str "READY")])).1,
      x.isDispatchBranch = false :=
  claim_C2 [("cmd", Json.str "DISPATCH"), ("evt", Json.str "READY")] rfl

/-- Claim C3: a frame that fails JSON decoding makes the loop log the
parse error and the raw frame content and continue with the remaining
frames; the loop is a total function of the frames, so no exception
escapes and a malformed frame never aborts the loop. -/
theorem claim_C3 (raw emsg : String) (rest : List Frame) (ending : StreamEnd) :
    listenLoop ((raw, Except.error emsg) :: rest) ending =
      Effect.logReceived raw :: Effect.logJsonError emsg ::
        Effect.logRawMessage raw :: listenLoop rest ending := rfl

/-- Claim C4: listen() and send_command() on a session whose handle is
absent log the usage error, return the session unchanged, and perform
no transport I/O. -/
theorem claim_C4 (s : DiscordRPCClient) (frames : List Frame)
    (ending : StreamEnd) (command : Json) (res : Option String)
    (hs : s.websocket = none) :
    s.listen frames ending = (s, [Effect.logNotConnected]) ∧
    s.send_command command res = (s, [Effect.logNotConnected]) ∧
    (∀ x ∈ (s.listen frames ending).2, x.isTransportOp = false) ∧
    (∀ x ∈ (s.send_command command res).2, x.isTransportOp = false) := by
  refine ⟨?_, ?_, ?_, ?_⟩ <;>
    simp [DiscordRPCClient.listen, DiscordRPCClient.send_command, hs,
      Effect.isTransportOp]

/-- Witness for claim C4 at a freshly constructed session. -/
theorem claim_C4_witness :
    (DiscordRPCClient.init "localhost" 6463).listen [] StreamEnd.exhausted
      = (DiscordRPCClient.init "localhost" 6463, [Effect.logNotConnected]) ∧
    (DiscordRPCClient.init "localhost" 6463).send_command (Json.obj []) none
      = (DiscordRPCClient.init "localhost" 6463, [Effect.logNotConnected]) := by
  have h := claim_C4 (DiscordRPCClient.init "localhost" 6463) []
    StreamEnd.exhausted (Json.obj []) none rfl
  exact ⟨h.1, h.2.1⟩

/-- Claim C5: send_activity_update builds exactly one Envelope whose
cmd is SET_ACTIVITY, whose args carries the integer pid 12345 and the
caller activity payload verbatim, whose nonce is activity-update, and
delegates it to send_command, so at most one frame is handed to the
transport per call. -/
theorem claim_C5 (activity : Json) (s : DiscordRPCClient) (res : Option String) :
    Json.getItem (activityCommand activity) "cmd"
      = Except.ok (Json.str "SET_ACTIVITY") ∧
    (Json.getItem (activityCommand activity) "args").bind
        (fun a => a.getItem "pid") = Except.ok (Json.num 12345) ∧
    (Json.getItem (activityCommand activity) "args").bind
        (fun a => a.getItem "activity") = Except.ok activity ∧
    Json.getItem (activityCommand activity) "nonce"
      = Except.ok (Json.str "activity-update") ∧
    s.send_activity_update activity res
      = s.send_command (activityCommand activity) res ∧
    countSends (s.send_activity_update activity res).2 ≤ 1 := by
  refine ⟨rfl, rfl, rfl, rfl, rfl, ?_⟩
  cases hs : s.websocket <;> cases res <;>
    simp [DiscordRPCClient.send_activity_update, DiscordRPCClient.send_command,
      countSends, hs]

/-- Claim C6: connect() with a successful transport stores the handle
and returns True; with a failing transport it returns False, logs the
underlying cause, and leaves the session unchanged; on a freshly
constructed session a failed connect leaves the handle absent, so a
subsequent send_command reports the usage error and sends nothing. -/
theorem claim_C6 (s : DiscordRPCClient) (h : Nat) (e : String)
    (host : String) (port : Nat) (command : Json) (res : Option String) :
    ((s.connect (Except.ok h)).1.websocket = some h ∧
      (s.connect (Except.ok h)).2.1 = true) ∧
    ((s.connect (Except.error e)).2.1 = false ∧
      Effect.logConnectFailed e ∈ (s.connect (Except.error e)).2.2 ∧
      (s.connect (Except.error e)).1 = s) ∧
    (((DiscordRPCClient.init host port).connect (Except.error e)).1.websocket
        = none ∧
      ((DiscordRPCClient.init host port).connect (Except.error e)).1.send_command
          command res
        = (((DiscordRPCClient.init host port).connect (Except.error e)).1,
            [Effect.logNotConnected])) := by
  refine ⟨⟨rfl, rfl⟩, ⟨rfl, ?_, rfl⟩, rfl, ?_⟩
  · simp [DiscordRPCClient.connect]
  · simp [DiscordRPCClient.connect, DiscordRPCClient.init,
      DiscordRPCClient.send_command]

/-- Claim C7, counterexample to the claim as stated.  The claim says a
second close performs no duplicate shutdown I/O because the handle is
already absent then.  On the code the handle is never cleared, so at
the concrete connected session the second close requests the transport
shutdown again. -/
theorem claim_C7_counterexample :
    Effect.wsClose ∈ ((connectedClient.close).1.close).2 ∧
    ((connectedClient.close).1.close).2 = [Effect.wsClose, Effect.logClosed] := by
  refine ⟨?_, rfl⟩
  simp [DiscordRPCClient.close, connectedClient]

/-- Claim C7, amended: a second close behaves exactly like the first
and produces no error; close is a no-op only when the handle is absent
(as on a never-connected session), and on a session whose handle is
present the second close repeats the shutdown request because the
handle was not cleared. -/
theorem claim_C7 (s : DiscordRPCClient) :
    ((s.close).1.close = s.close) ∧
    (s.websocket = none → s.close = (s, [])) ∧
    (∀ h, s.websocket = some h →
      ((s.close).1.close).2 = [Effect.wsClose, Effect.logClosed]) := by
  refine ⟨?_, ?_, ?_⟩
  · rw [close_fst]
  · intro hs
    simp [DiscordRPCClient.close, hs]
  · intro h hs
    rw [close_fst]
    simp [DiscordRPCClient.close, hs]

/-- Witness for claim C7 at the concrete connected session. -/
theorem claim_C7_witness :
    ((connectedClient.close).1.close).2 = [Effect.wsClose, Effect.logClosed] :=
  (claim_C7 connectedClient).2.2 0 rfl

/-- Claim C8: three frames delivered in order, each decoding to an
Envelope whose handler completes without an escaping exception, are
dispatched in that same order; the effect trace of listen is exactly
the per-frame blocks in delivery order, each handler running to
completion (its whole effect block) before the next frame is read, and
the dispatch invocations in the trace are exactly the three Envelopes
in order. -/
theorem claim_C8 (s : DiscordRPCClient) (hnd : Nat) (r1 r2 r3 : String)
    (e1 e2 e3 : Json) (ending : StreamEnd)
    (hs : s.websocket = some hnd)
    (h1 : (handle_message e1).2 = none)
    (h2 : (handle_message e2).2 = none)
    (h3 : (handle_message e3).2 = none) :
    (s.listen [(r1, Except.ok e1), (r2, Except.ok e2), (r3, Except.ok e3)]
        ending).2
      = Effect.logReceived r1 :: Effect.dispatch e1 :: ((handle_message e1).1
        ++ (Effect.logReceived r2 :: Effect.dispatch e2 :: ((handle_message e2).1
        ++ (Effect.logReceived r3 :: Effect.dispatch e3 :: ((handle_message e3).1
        ++ endEffects ending))))) ∧
    ((s.listen [(r1, Except.ok e1), (r2, Except.ok e2), (r3, Except.ok e3)]
        ending).2).filter Effect.isDispatchCall
      = [Effect.dispatch e1, Effect.dispatch e2, Effect.dispatch e3] := by
  have htrace :
      (s.listen [(r1, Except.ok e1), (r2, Except.ok e2), (r3, Except.ok e3)]
          ending).2
        = Effect.logReceived r1 :: Effect.dispatch e1 :: ((handle_message e1).1
          ++ (Effect.logReceived r2 :: Effect.dispatch e2 :: ((handle_message e2).1
          ++ (Effect.logReceived r3 :: Effect.dispatch e3 :: ((handle_message e3).1
          ++ endEffects ending))))) := by
    simp [DiscordRPCClient.listen, hs, listenLoop, h1, h2, h3]
  refine ⟨htrace, ?_⟩
  rw [htrace]
  simp [List.filter_append, handle_message_filter_dispatchCall,
    endEffects_filter_dispatchCall, Effect.isDispatchCall]

/-- Witness for claim C8: three unknown-type Envelopes fed through a
connected session are dispatched in delivery order. -/
theorem claim_C8_witness :
    ((connectedClient.listen
        [("a", Except.ok (Json.obj [("cmd", Json.str "A")])),
         ("b", Except.ok (Json.obj [("cmd", Json.str "B")])),
         ("c", Except.ok (Json.obj [("cmd", Json.str "C")]))]
        StreamEnd.exhausted).2).filter Effect.isDispatchCall
      = [Effect.dispatch (Json.obj [("cmd", Json.str "A")]),
         Effect.dispatch (Json.obj [("cmd", Json.str "B")]),
         Effect.dispatch (Json.obj [("cmd", Json.str "C")])] :=
  (claim_C8 connectedClient 0 "a" "b" "c"
    (Json.obj [("cmd", Json.str "A")])
    (Json.obj [("cmd", Json.str "B")])
    (Json.obj [("cmd", Json.str "C")])
    StreamEnd.exhausted rfl rfl rfl rfl).2

/-- Claim C9: an Envelope classified neither as READY nor as DISPATCH
(in particular one containing neither cmd nor evt) is handled by the
unknown branch: handle_message only logs both cmd and evt (possibly
absent), raises nothing, and performs no other effect. -/
theorem claim_C9 (fields : List (String × Json))
    (hevt : isReadyEvt (List.lookup "evt" fields) = false)
    (hcmd : isDispatchCmd (List.lookup "cmd" fields) = false) :
    handle_message (Json.obj fields)
      = ([Effect.logUnknown (List.lookup "cmd" fields)
            (List.lookup "evt" fields)], none) := by
  simp [handle_message, hevt, hcmd]

/-- Witness for claim C9: the empty Envelope, with neither cmd nor
evt, is only logged as unknown and raises nothing. -/
theorem claim_C9_witness :
    handle_message (Json.obj []) = ([Effect.logUnknown none none], none) :=
  claim_C9 [] rfl rfl

/-- Claim C10: a READY Envelope whose data is absent, whose data lacks
the user or username fields, or whose data lacks config, and a
DISPATCH Envelope whose data is absent, all make handle_message raise
a KeyError that escapes; the receive loop then logs the error through
its generic handler and terminates instead of continuing with the
remaining frames, whatever they are. -/
theorem claim_C10 (raw : String) (rest : List Frame) (ending : StreamEnd) :
    (handle_message (Json.obj [("evt", Json.str "READY")])).2
      = some (PyErr.keyError "data") ∧
    (handle_message (Json.obj
        [("evt", Json.str "READY"), ("data", Json.obj [])])).2
      = some (PyErr.keyError "user") ∧
    (handle_message (Json.obj
        [("evt", Json.str "READY"),
         ("data", Json.obj
           [("user", Json.obj [("username", Json.str "alice")])])])).2
      = some (PyErr.keyError "config") ∧
    (handle_message (Json.obj [("cmd", Json.str "DISPATCH")])).2
      = some (PyErr.keyError "data") ∧
    (connectedClient.listen
        ((raw, Except.ok (Json.obj [("evt", Json.str "READY")])) :: rest)
        ending).2
      = [Effect.logReceived raw,
         Effect.dispatch (Json.obj [("evt", Json.str "READY")]),
         Effect.logReady, Effect.logListenError (PyErr.keyError "data")] :=
  ⟨rfl, rfl, rfl, rfl, rfl⟩
